import Mathlib

/-!
A shallow embedding of `curiosity_agent.py` (repository
`leosoumya/curiosityexplorer`): data model, credential resolution,
the `ask` answer pipeline, the `_clean_for_speech` text sanitizer,
the `speak` synthesis gate, and the interactive `run` command loop.

Remote services (chat completion, speech synthesis, voice
transcription) are modelled as oracles passed in explicitly; the
requests a function issues to an oracle are returned as an explicit
log so that "a remote call was made" is observable in the model.
Python strings are modelled as Lean `String` (sequences of Unicode
code points, matching Python's `str`); `str.strip`, `str.lower` and
slicing are embedded over the underlying character list.
-/

namespace Curiosity

/-- Python whitespace as used by `str.strip()` and the regex class
`\s` (the ASCII part, which is all the repository's data exercises). -/
def isPyWs (c : Char) : Bool :=
  c = ' ' || c = '\t' || c = '\n' || c = '\r' || c = '\x0b' || c = '\x0c'

/-- Embedding of Python `s.strip()`: drop leading and trailing whitespace. -/
def pyStrip (s : String) : String :=
  ⟨((s.data.dropWhile isPyWs).reverse.dropWhile isPyWs).reverse⟩

/-- Embedding of Python `s.lower()` (ASCII case mapping, which is all
the command vocabulary needs). -/
def pyLower (s : String) : String :=
  ⟨s.data.map Char.toLower⟩

/-- Embedding of Python slicing `s[:n]`: the first `n` characters. -/
def pyTake (s : String) (n : Nat) : String :=
  ⟨s.data.take n⟩

/-- One chat message: `{"role": ..., "content": ...}`. -/
structure Turn where
  role : String
  content : String
deriving DecidableEq, Repr

/-- The mutable per-session state of `CuriosityAgent`:
`self.conversation_history` and `self.muted`. -/
structure AgentState where
  conversation_history : List Turn
  muted : Bool
deriving DecidableEq, Repr

/-- Embedding of the Python slice `history[-6:]` used at
`conversation_history[-6:]`: the last `n` elements (all of them when
fewer than `n` exist). -/
def windowed (n : Nat) (l : List Turn) : List Turn :=
  l.drop (l.length - n)

/-- The fixed system prompt `CuriosityAgent.SYSTEM_PROMPT`. -/
def SYSTEM_PROMPT : String :=
  "You are a friendly helper for a 5-6 year old child.\n\nSTRICT RULES:\n1. ONLY give the answer. NEVER ask a question back.\n2. NO follow-up questions. NO \"Do you know...?\" NO \"Can you...?\" NO \"What do you think...?\"\n3. End with a statement, NOT a question.\n\nHOW TO TALK:\n- Simple words only (say \"big\" not \"large\")\n- Compare to kid things (big as a bus)\n- Say \"Wow!\" or \"Cool!\" to be fun\n- Short sentences (5-7 words max)\n\nGOOD EXAMPLES:\nKid: \"How many moons does Saturn have?\"\nYou: \"Wow, Saturn has 146 moons! That is so many!\"\n\nKid: \"Why is the sky blue?\"\nYou: \"Light from the sun bounces in the air. Blue bounces the most!\"\n\nKid: \"How fast do cheetahs run?\"\nYou: \"Cheetahs run super fast! As fast as a car!\"\n\nBAD (never do this):\n\"Can you guess?\"\n\"Do you know what else?\"\n\"What do you think?\"\n\nREMEMBER: Answer only. No questions. End with a period or exclamation mark."

/-- The system message prepended to every completion request. -/
def systemTurn : Turn := ⟨"system", SYSTEM_PROMPT⟩

/-- The fixed fallback returned by `ask` for an empty question. -/
def emptyQuestionFallback : String := "Please ask me something!"

/-- Result of one `ask` call: the successor agent state, the string
returned to the caller, and the list of requests submitted to the
remote completion service during the call (each request is the full
message list, system prompt first). -/
structure AskResult where
  state : AgentState
  reply : String
  requests : List (List Turn)
deriving Repr

/-- Embedding of `CuriosityAgent.ask`.  `complete` is the remote
completion oracle: it receives the message list the code passes to
`chat.completions.create` and yields the answer text or an error
message (the `str(e)` of the raised exception). -/
def ask (st : AgentState) (question : String)
    (complete : List Turn → Except String String) : AskResult :=
  if pyStrip question = "" then
    ⟨st, emptyQuestionFallback, []⟩
  else
    let hist1 := st.conversation_history ++ [⟨"user", question⟩]
    let recent_history := windowed 6 hist1
    let messages := systemTurn :: recent_history
    match complete messages with
    | .ok raw =>
        let answer := pyStrip raw
        ⟨⟨hist1 ++ [⟨"assistant", answer⟩], st.muted⟩, answer, [messages]⟩
    | .error e =>
        ⟨⟨hist1, st.muted⟩,
          "Oops! Something went wrong. Let\x27s try again! (" ++ pyTake e 50 ++ ")",
          [messages]⟩

/-- A character in one of the three ranges of the emoji regex in
`_clean_for_speech`: `\U0001F300-\U0001F9FF`, `\U00002600-\U000026FF`,
`\U00002700-\U000027BF`. -/
def isEmojiChar (c : Char) : Bool :=
  (0x1F300 ≤ c.toNat && c.toNat ≤ 0x1F9FF) ||
  (0x2600 ≤ c.toNat && c.toNat ≤ 0x26FF) ||
  (0x2700 ≤ c.toNat && c.toNat ≤ 0x27BF)

/-- Leftmost match of the regex `https?://\S+` at the head of the
list: on success, the input minus the matched prefix. -/
def matchHttp (l : List Char) : Option (List Char) :=
  let core : List Char → Option (List Char) := fun r =>
    match r with
    | ':' :: '/' :: '/' :: r3 =>
        match r3.span (fun c => !isPyWs c) with
        | (u, r4) => if u.isEmpty then none else some r4
    | _ => none
  match l with
  | 'h' :: 't' :: 't' :: 'p' :: 's' :: rest => core rest <|> core ('s' :: rest)
  | 'h' :: 't' :: 't' :: 'p' :: rest => core rest
  | _ => none

/-- Leftmost match of the regex `www\.\S+` at the head of the list. -/
def matchWww (l : List Char) : Option (List Char) :=
  match l with
  | 'w' :: 'w' :: 'w' :: '.' :: rest =>
      match rest.span (fun c => !isPyWs c) with
      | (u, r) => if u.isEmpty then none else some r
  | _ => none

/-- Leftmost match of the markdown-link regex `\[([^\]]+)\]\([^)]+\)`
at the head of the list: on success, the capture group (the label)
and the input minus the matched prefix. -/
def matchMdLink (l : List Char) : Option (List Char × List Char) :=
  match l with
  | '[' :: rest =>
      match rest.span (fun c => c ≠ ']') with
      | (label, r1) =>
        if label.isEmpty then none else
        match r1 with
        | ']' :: '(' :: r2 =>
            match r2.span (fun c => c ≠ ')') with
            | (url, r3) =>
              if url.isEmpty then none else
              match r3 with
              | ')' :: r4 => some (label, r4)
              | _ => none
        | _ => none
  | _ => none

/-- The left-to-right, non-overlapping substitution loop of
`re.sub`: at each position try a match; on a match emit its
replacement and resume after the matched text, otherwise keep the
character.  `fuel` bounds the recursion; every step consumes at least
one input character, so `fuel = l.length` is exact. -/
def subScan (tryMatch : List Char → Option (List Char × List Char)) :
    Nat → List Char → List Char
  | 0, l => l
  | _ + 1, [] => []
  | fuel + 1, c :: cs =>
      match tryMatch (c :: cs) with
      | some (rep, rest) => rep ++ subScan tryMatch fuel rest
      | none => c :: subScan tryMatch fuel cs

/-- One `re.sub(pat, repl, text)` pass over a character list. -/
def reSub (tryMatch : List Char → Option (List Char × List Char))
    (l : List Char) : List Char :=
  subScan tryMatch l.length l

/-- Collapse each run of spaces to a single space; composed with the
whitespace-to-space map below this is exactly `re.sub(r'\s+', ' ', text)`. -/
def squeezeSpaces : List Char → List Char
  | [] => []
  | c :: cs =>
      let rest := squeezeSpaces cs
      if c = ' ' then
        match rest with
        | ' ' :: _ => rest
        | _ => ' ' :: rest
      else c :: rest

/-- Embedding of `CuriosityAgent._clean_for_speech`: remove emoji
characters, remove `https?://` and `www.` URLs, rewrite markdown
links to their label, collapse whitespace and strip — in that order,
exactly as the Python function applies its four `re.sub` passes. -/
def _clean_for_speech (text : String) : String :=
  let l0 := text.data.filter (fun c => !isEmojiChar c)
  let l1 := reSub (fun l => (matchHttp l).map (fun r => ([], r))) l0
  let l2 := reSub (fun l => (matchWww l).map (fun r => ([], r))) l1
  let l3 := reSub matchMdLink l2
  let l4 := squeezeSpaces (l3.map (fun c => if isPyWs c then ' ' else c))
  pyStrip ⟨l4⟩

/-- Embedding of `CuriosityAgent.speak`: the list of requests issued
to the remote speech-synthesis service (each request is the sanitized
input text).  Muted sessions and empty sanitized text issue none;
otherwise exactly one request is issued.  Synthesis or playback
failure affects no session state, so it does not appear in the model. -/
def speak (st : AgentState) (text : String) : List String :=
  if st.muted then []
  else
    let clean_text := _clean_for_speech text
    if clean_text = "" then []
    else [clean_text]

/-- Python truthiness on an optional string: `None` and `""` are
falsy, every other string is truthy.  `truthy v = some s` exactly when
the Python value is truthy (and then `s` is that value). -/
def truthy : Option String → Option String
  | some s => if s = "" then none else some s
  | none => none

/-- Embedding of the Python expression `a or b` on optional strings:
the left value when truthy, otherwise the right value. -/
def orElseTruthy (a b : Option String) : Option String :=
  match truthy a with
  | some s => some s
  | none => b

/-- Embedding of `load_api_key_from_config`.  `config` is the string
`config.get("openai_api_key", "")` when `config.json` exists and
parses, and `none` when the file is missing or unreadable.  The
function strips the value and yields it only when non-empty. -/
def load_api_key_from_config (config : Option String) : Option String :=
  match config with
  | none => none
  | some raw =>
      let key := pyStrip raw
      if key = "" then none else some key

/-- The credential line of `CuriosityAgent.__init__`:
`api_key or load_api_key_from_config() or os.getenv("OPENAI_API_KEY")`.
`api_key` is the explicit constructor argument, `env` the value of the
environment variable (`none` when unset). -/
def resolve_api_key (api_key config env : Option String) : Option String :=
  orElseTruthy (orElseTruthy api_key (load_api_key_from_config config)) env

/-- The message of the `ValueError` raised when no credential resolves. -/
def noCredentialMsg : String :=
  "OpenAI API key required. Add it to config.json, set OPENAI_API_KEY environment variable, or pass api_key parameter."

/-- Embedding of `CuriosityAgent.__init__`: resolve the credential,
fail with the `ValueError` when the resolved value is falsy, otherwise
build the fresh session state (empty history, unmuted).  The second
component is the list of remote requests issued during construction —
the constructor contacts no remote service, so it is always `[]`. -/
def constructAgent (api_key config env : Option String) :
    Except String AgentState × List (List Turn) :=
  match resolve_api_key api_key config env with
  | none => (.error noCredentialMsg, [])
  | some k => if k = "" then (.error noCredentialMsg, []) else (.ok ⟨[], false⟩, [])

/-- One event delivered to the `run` loop: a typed line from
`input()`, a `KeyboardInterrupt`, or an `EOFError`. -/
inductive Event where
  | line (s : String)
  | interrupt
  | endOfInput
deriving DecidableEq, Repr

/-- The remote collaborators of the loop: the completion service and
the transcription service (`listen`), the latter keyed by how many
listen calls have happened so far; an empty transcription models
every recovered failure of `listen` (timeout, unintelligible,
service error, recognizer unavailable). -/
structure Oracle where
  complete : List Turn → Except String String
  listen : Nat → String

/-- State threaded through the `run` loop: the agent, the number of
`listen` calls made, and logs of the requests issued to the two
remote services. -/
structure RunState where
  agent : AgentState
  listenCount : Nat
  completionLog : List (List Turn)
  synthLog : List String
deriving Repr

/-- How an iteration of `run` leaves the loop. -/
inductive ExitKind where
  | quitCmd
  | interrupted
  | endOfInputExit
deriving DecidableEq, Repr

/-- The question path of one `run` iteration: `ask` then `speak`,
appending the issued requests to the logs. -/
def doQuestion (o : Oracle) (st : RunState) (q : String) : RunState :=
  let r := ask st.agent q o.complete
  let synth := speak r.state r.reply
  ⟨r.state, st.listenCount, st.completionLog ++ r.requests, st.synthLog ++ synth⟩

/-- One iteration of `CuriosityAgent.run`: normalize the typed line
with `.strip().lower()`, dispatch the command vocabulary, and treat
anything else as a question.  `some exit` means the loop breaks. -/
def runStep (o : Oracle) (st : RunState) (ev : Event) :
    RunState × Option ExitKind :=
  match ev with
  | .interrupt => (st, some .interrupted)
  | .endOfInput => (st, some .endOfInputExit)
  | .line s =>
      let user_input := pyLower (pyStrip s)
      if user_input = "quit" || user_input = "exit" ||
         user_input = "bye" || user_input = "q" then
        (st, some .quitCmd)
      else if user_input = "clear" then
        ({ st with agent := { st.agent with conversation_history := [] } }, none)
      else if user_input = "mute" then
        ({ st with agent := { st.agent with muted := true } }, none)
      else if user_input = "unmute" then
        ({ st with agent := { st.agent with muted := false } }, none)
      else if user_input = "voice" then
        let t := o.listen st.listenCount
        let st1 := { st with listenCount := st.listenCount + 1 }
        if t = "" then (st1, none) else (doQuestion o st1 t, none)
      else if user_input = "" then
        (st, none)
      else
        (doQuestion o st user_input, none)

/-- The `run` loop over a finite event script.  `none` as exit kind
means the script ended with the loop still awaiting input. -/
def runLoop (o : Oracle) : RunState → List Event → RunState × Option ExitKind
  | st, [] => (st, none)
  | st, ev :: evs =>
      match runStep o st ev with
      | (st', some k) => (st', some k)
      | (st', none) => runLoop o st' evs

/-- The `try`/`except` of `main` around construction and the loop:
a `ValueError` from construction reaches `sys.exit(1)`; otherwise the
loop runs to completion (every failure inside it is caught where it
occurs) and the process exits normally with code 0. -/
def mainExitCode (api_key config env : Option String) (o : Oracle)
    (evs : List Event) : Nat :=
  match (constructAgent api_key config env).1 with
  | .error _ => 1
  | .ok ag =>
      let _ := runLoop o ⟨ag, 0, [], []⟩ evs
      0

/-! ## Concrete fixtures used by witness theorems -/

/-- A fresh session: empty history, unmuted. -/
def st0 : AgentState := ⟨[], false⟩

/-- A completion oracle that always answers. -/
def okOracle : List Turn → Except String String := fun _ => .ok "Hello!"

/-- A completion oracle that always fails. -/
def errOracle : List Turn → Except String String := fun _ => .error "boom"

/-! ## Claims about the `ask` pipeline -/

/-- **C1.** For every sequence of appended turns, the request `ask`
submits to the remote completion call is the system prompt followed by
exactly the last `min(6, len)` turns of the (just-extended) history in
their original order — the window is a suffix of the history of length
`min 6 len` — while the full history is retained: the state after
`ask` still starts with every previously appended turn. -/
theorem ask_window_C1 (st : AgentState) (q : String)
    (complete : List Turn → Except String String) (hq : pyStrip q ≠ "") :
    (ask st q complete).requests =
      [systemTurn :: windowed 6 (st.conversation_history ++ [Turn.mk "user" q])] ∧
    (st.conversation_history ++ [Turn.mk "user" q]).take
        ((st.conversation_history ++ [Turn.mk "user" q]).length - 6) ++
      windowed 6 (st.conversation_history ++ [Turn.mk "user" q]) =
      st.conversation_history ++ [Turn.mk "user" q] ∧
    (windowed 6 (st.conversation_history ++ [Turn.mk "user" q])).length =
      min 6 (st.conversation_history ++ [Turn.mk "user" q]).length ∧
    ∃ rest, (ask st q complete).state.conversation_history =
      st.conversation_history ++ Turn.mk "user" q :: rest := by
  have hsuffix : ∀ l : List Turn, l.take (l.length - 6) ++ windowed 6 l = l :=
    fun l => List.take_append_drop _ l
  have hlen : ∀ l : List Turn, (windowed 6 l).length = min 6 l.length := by
    intro l
    simp only [windowed, List.length_drop]
    omega
  refine ⟨?_, hsuffix _, hlen _, ?_⟩ <;>
    rcases hc : complete (systemTurn ::
      windowed 6 (st.conversation_history ++ [Turn.mk "user" q])) with raw | e <;>
    simp [ask, hq, hc]

/-- **C1 witness.** A concrete run of `ask` on a fresh session. -/
theorem ask_window_C1_witness :
    (ask st0 "hi" okOracle).requests =
      [systemTurn :: windowed 6 (st0.conversation_history ++ [Turn.mk "user" "hi"])] ∧
    (st0.conversation_history ++ [Turn.mk "user" "hi"]).take
        ((st0.conversation_history ++ [Turn.mk "user" "hi"]).length - 6) ++
      windowed 6 (st0.conversation_history ++ [Turn.mk "user" "hi"]) =
      st0.conversation_history ++ [Turn.mk "user" "hi"] ∧
    (windowed 6 (st0.conversation_history ++ [Turn.mk "user" "hi"])).length =
      min 6 (st0.conversation_history ++ [Turn.mk "user" "hi"]).length ∧
    ∃ rest, (ask st0 "hi" okOracle).state.conversation_history =
      st0.conversation_history ++ Turn.mk "user" "hi" :: rest :=
  ask_window_C1 st0 "hi" okOracle (by decide)

/-- **C2.** When the completion call fails, `ask` returns the fixed
fallback string embedding the diagnostic truncated to at most 50
characters, and appends no assistant turn: the assistant turns of the
history are unchanged. -/
theorem ask_failure_fallback_C2 (st : AgentState) (q e : String)
    (complete : List Turn → Except String String) (hq : pyStrip q ≠ "")
    (he : complete (systemTurn ::
        windowed 6 (st.conversation_history ++ [Turn.mk "user" q])) =
      .error e) :
    (ask st q complete).reply =
      "Oops! Something went wrong. Let\x27s try again! (" ++ pyTake e 50 ++ ")" ∧
    (pyTake e 50).length ≤ 50 ∧
    (ask st q complete).state.conversation_history.filter
        (fun t => t.role == "assistant") =
      st.conversation_history.filter (fun t => t.role == "assistant") := by
  refine ⟨?_, ?_, ?_⟩
  · simp [ask, hq, he]
  · simp only [pyTake, String.length]
    exact List.length_take_le 50 e.data
  · simp [ask, hq, he, List.filter_append]

/-- **C2 witness.** A concrete failing completion call. -/
theorem ask_failure_fallback_C2_witness :
    (ask st0 "hi" errOracle).reply =
      "Oops! Something went wrong. Let\x27s try again! (" ++ pyTake "boom" 50 ++ ")" ∧
    (pyTake "boom" 50).length ≤ 50 ∧
    (ask st0 "hi" errOracle).state.conversation_history.filter
        (fun t => t.role == "assistant") =
      st0.conversation_history.filter (fun t => t.role == "assistant") :=
  ask_failure_fallback_C2 st0 "hi" "boom" errOracle (by decide) rfl

/-- **C3 counterexample.** The claim says the history after a failed
`ask` is identical to the history before; on a fresh session asking
"hi" against a failing completion service, the history after the call
is not the empty history it started from (the user turn remains). -/
theorem ask_failure_not_atomic_C3 :
    (ask ⟨[], false⟩ "hi" (fun _ => Except.error "boom")).state.conversation_history ≠
      ([] : List Turn) := by
  decide

/-- **C3 (amended).** When the completion call fails, the exchange is
only partially dropped: the assistant turn and the fallback reply are
not recorded, but the user's question turn stays appended — the
history after `ask` is the history before plus exactly the orphaned
user turn, and the muted flag is untouched. -/
theorem ask_failure_orphan_user_C3 (st : AgentState) (q e : String)
    (complete : List Turn → Except String String) (hq : pyStrip q ≠ "")
    (he : complete (systemTurn ::
        windowed 6 (st.conversation_history ++ [Turn.mk "user" q])) =
      .error e) :
    (ask st q complete).state.conversation_history =
      st.conversation_history ++ [Turn.mk "user" q] ∧
    (ask st q complete).state.muted = st.muted := by
  constructor <;> simp [ask, hq, he]

/-- **C3 witness.** The amended statement at a concrete failing call. -/
theorem ask_failure_orphan_user_C3_witness :
    (ask st0 "hi" errOracle).state.conversation_history =
      st0.conversation_history ++ [Turn.mk "user" "hi"] ∧
    (ask st0 "hi" errOracle).state.muted = st0.muted :=
  ask_failure_orphan_user_C3 st0 "hi" "boom" errOracle (by decide) rfl

/-- **C7.** For every question that is empty after stripping
whitespace, `ask` makes no remote call, changes nothing, and returns
the fixed fallback message. -/
theorem ask_empty_C7 (st : AgentState) (q : String)
    (complete : List Turn → Except String String) (hq : pyStrip q = "") :
    ask st q complete = ⟨st, emptyQuestionFallback, []⟩ := by
  simp [ask, hq]

/-- **C7 witness.** A whitespace-only question on a fresh session. -/
theorem ask_empty_C7_witness :
    ask st0 "   " okOracle = ⟨st0, emptyQuestionFallback, []⟩ :=
  ask_empty_C7 st0 "   " okOracle (by decide)

/-! ## Claims about the text sanitizer -/

/-- **C4 counterexample.** The claim says the sanitizer yields exactly
"Check here" on this input; it does not.  The URL-removal pass runs
before the markdown-link pass and `\S+` greedily consumes
"http://y.co)" including the closing parenthesis, so the markdown-link
pattern no longer matches and the bracketed label survives. -/
theorem clean_for_speech_C4_counterexample :
    _clean_for_speech "Check 😀 https://x.co [here](http://y.co)" ≠ "Check here" := by
  decide

/-- **C4 (amended).** On that input the sanitizer yields
"Check [here](": the emoji is removed and both URLs are removed, but
because URL removal precedes markdown-link rewriting, the link's URL
together with its closing parenthesis is consumed by the URL pass, the
markdown rule does not fire, the bracketed label and opening
parenthesis remain, and whitespace is collapsed and trimmed. -/
theorem clean_for_speech_C4_amended :
    _clean_for_speech "Check 😀 https://x.co [here](http://y.co)" = "Check [here](" := by
  decide

/-! ## Claims about credential resolution and construction -/

/-- A falsy left operand of Python `or` yields the right operand. -/
theorem orElseTruthy_of_falsy {a : Option String} (b : Option String)
    (h : truthy a = none) : orElseTruthy a b = b := by
  simp [orElseTruthy, h]

/-- A truthy left operand of Python `or` yields itself. -/
theorem orElseTruthy_of_truthy {a : Option String} (b : Option String) {k : String}
    (h : truthy a = some k) : orElseTruthy a b = some k := by
  simp [orElseTruthy, h]

/-- `truthy` only yields non-empty strings. -/
theorem truthy_ne_empty {a : Option String} {k : String}
    (h : truthy a = some k) : k ≠ "" := by
  rcases a with _ | s
  · simp [truthy] at h
  · by_cases hs : s = ""
    · simp [truthy, hs] at h
    · simp [truthy, hs] at h
      subst h
      exact hs

/-- **C5 counterexample.** The claim says that with the credential
present only in the Configuration Record, resolution yields exactly
the record's value.  When the record's value carries surrounding
whitespace, resolution yields the stripped string instead, which
differs from the stored value. -/
theorem resolve_api_key_C5_counterexample :
    resolve_api_key none (some " sk-test ") none = some "sk-test" ∧
    " sk-test " ≠ "sk-test" := by
  constructor
  · decide
  · decide

/-- **C5 (amended).** Credential resolution tries the sources in
priority order — explicit caller value, then Configuration Record
(whose value is read with surrounding whitespace stripped), then
environment variable — treating absent or empty values as missing at
each step; when the explicit value is missing and the record holds a
value that is non-empty after stripping, resolution succeeds with the
record's value stripped of surrounding whitespace (identical to the
stored value whenever it carries none); when the record also yields
nothing, resolution falls through to the environment variable. -/
theorem resolve_api_key_C5_amended (a c e : Option String) :
    (∀ k, truthy a = some k → resolve_api_key a c e = some k) ∧
    (truthy a = none → ∀ v, c = some v → pyStrip v ≠ "" →
      resolve_api_key a c e = some (pyStrip v)) ∧
    (truthy a = none → load_api_key_from_config c = none →
      resolve_api_key a c e = e) := by
  refine ⟨?_, ?_, ?_⟩
  · intro k hk
    have hk' : truthy (some k) = some k := by
      simp [truthy, truthy_ne_empty hk]
    rw [resolve_api_key, orElseTruthy_of_truthy _ hk,
      orElseTruthy_of_truthy e hk']
  · intro ha v hv hvs
    have hload : load_api_key_from_config c = some (pyStrip v) := by
      simp [load_api_key_from_config, hv, hvs]
    have hv' : truthy (some (pyStrip v)) = some (pyStrip v) := by
      simp [truthy, hvs]
    rw [resolve_api_key, orElseTruthy_of_falsy _ ha, hload,
      orElseTruthy_of_truthy e hv']
  · intro ha hc
    have hnone : truthy (none : Option String) = none := rfl
    rw [resolve_api_key, orElseTruthy_of_falsy _ ha, hc,
      orElseTruthy_of_falsy e hnone]

/-- **C5 witness.** A credential present only in the Configuration
Record (explicit value and environment variable both absent) resolves
to the record's (stripped) value. -/
theorem resolve_api_key_C5_witness :
    resolve_api_key none (some "sk-test") none = some (pyStrip "sk-test") :=
  (resolve_api_key_C5_amended none (some "sk-test") none).2.1 rfl "sk-test" rfl
    (by decide)

/-- **C6.** When no source provides a truthy credential, construction
fails with the no-credential `ValueError`, issues no remote request,
and — in the model of `main`'s `try`/`except` — this is the only
failure that terminates the process with a non-zero code: the exit
code is 1 exactly when construction fails, and every failure inside
the running loop (completion, synthesis, transcription) leaves the
exit code 0 for every oracle and event script. -/
theorem construct_no_credential_C6 (a c e : Option String)
    (ha : truthy a = none) (hc : load_api_key_from_config c = none)
    (he : truthy e = none) :
    (constructAgent a c e).1 = Except.error noCredentialMsg ∧
    (constructAgent a c e).2 = [] ∧
    (∀ o evs, mainExitCode a c e o evs = 1) ∧
    (∀ a' c' e' o evs, mainExitCode a' c' e' o evs = 1 ↔
      ∃ msg, (constructAgent a' c' e').1 = Except.error msg) := by
  have hres : resolve_api_key a c e = e := by
    have hnone : truthy (none : Option String) = none := rfl
    rw [resolve_api_key, orElseTruthy_of_falsy _ ha, hc,
      orElseTruthy_of_falsy e hnone]
  have hcon : (constructAgent a c e).1 = Except.error noCredentialMsg := by
    rcases e with _ | s
    · simp [constructAgent, hres]
    · have hs : s = "" := by
        by_contra hne
        simp [truthy, hne] at he
      subst hs
      simp [constructAgent, hres]
  refine ⟨hcon, ?_, ?_, ?_⟩
  · rcases e with _ | s
    · simp [constructAgent, hres]
    · have hs : s = "" := by
        by_contra hne
        simp [truthy, hne] at he
      subst hs
      simp [constructAgent, hres]
  · intro o evs
    simp [mainExitCode, hcon]
  · intro a' c' e' o evs
    rcases hcon' : (constructAgent a' c' e').1 with msg | ag
    · simp [mainExitCode, hcon']
    · simp [mainExitCode, hcon']

/-- **C6 witness.** All three sources absent: construction fails, no
remote request is issued, and the process exits with code 1 on an
arbitrary concrete script. -/
theorem construct_no_credential_C6_witness :
    (constructAgent none none none).1 = Except.error noCredentialMsg ∧
    (constructAgent none none none).2 = [] ∧
    (∀ o evs, mainExitCode none none none o evs = 1) ∧
    (∀ a' c' e' o evs, mainExitCode a' c' e' o evs = 1 ↔
      ∃ msg, (constructAgent a' c' e').1 = Except.error msg) :=
  construct_no_credential_C6 none none none rfl rfl rfl

/-! ## Claims about speech gating and the command loop -/

/-- `ask` never changes the muted flag. -/
theorem ask_preserves_muted (st : AgentState) (q : String)
    (complete : List Turn → Except String String) :
    (ask st q complete).state.muted = st.muted := by
  by_cases hq : pyStrip q = ""
  · simp [ask, hq]
  · rcases hc : complete (systemTurn ::
        windowed 6 (st.conversation_history ++ [Turn.mk "user" q])) with raw | e <;>
      simp [ask, hq, hc]

/-- A muted session with pending question fixture. -/
def rM : RunState := ⟨⟨[], true⟩, 0, [], []⟩

/-- An unmuted fresh loop-state fixture. -/
def r0 : RunState := ⟨st0, 0, [], []⟩

/-- An oracle fixture: completions succeed, transcription yields a
fixed mixed-case phrase. -/
def o0 : Oracle := ⟨okOracle, fun _ => "Why Is The Sky Blue"⟩

/-- **C8.** While muted, the question path still issues exactly one
completion request but zero synthesis requests; with the flag cleared,
`speak` on text whose sanitized form is non-empty issues exactly that
synthesis request (unmuting restores synthesis); and independently,
whenever the sanitized text is empty, `speak` issues no synthesis
request at all. -/
theorem speak_muted_C8 (o : Oracle) (st : RunState) (q : String)
    (hm : st.agent.muted = true) (hq : pyStrip q ≠ "") :
    (doQuestion o st q).completionLog = st.completionLog ++
      [systemTurn :: windowed 6 (st.agent.conversation_history ++ [Turn.mk "user" q])] ∧
    (doQuestion o st q).synthLog = st.synthLog ∧
    (∀ ag text, ag.muted = false → _clean_for_speech text ≠ "" →
      speak ag text = [_clean_for_speech text]) ∧
    (∀ ag text, _clean_for_speech text = "" → speak ag text = []) := by
  refine ⟨?_, ?_, ?_, ?_⟩
  · rcases hc : o.complete (systemTurn ::
        windowed 6 (st.agent.conversation_history ++ [Turn.mk "user" q])) with raw | e <;>
      simp [doQuestion, ask, hq, hc]
  · have hmut : (ask st.agent q o.complete).state.muted = true := by
      rw [ask_preserves_muted]
      exact hm
    simp [doQuestion, speak, hmut]
  · intro ag text h1 h2
    simp [speak, h1, h2]
  · intro ag text h
    simp [speak, h]

/-- **C8 witness.** Concrete muted question, concrete unmuted speech,
concrete all-emoji (empty after sanitizing) speech. -/
theorem speak_muted_C8_witness :
    (doQuestion o0 rM "hi").completionLog = rM.completionLog ++
      [systemTurn :: windowed 6 (rM.agent.conversation_history ++ [Turn.mk "user" "hi"])] ∧
    (doQuestion o0 rM "hi").synthLog = rM.synthLog ∧
    speak ⟨[], false⟩ "Hello there!" = [_clean_for_speech "Hello there!"] ∧
    speak ⟨[], false⟩ "😀" = [] :=
  ⟨(speak_muted_C8 o0 rM "hi" rfl (by decide)).1,
   (speak_muted_C8 o0 rM "hi" rfl (by decide)).2.1,
   (speak_muted_C8 o0 rM "hi" rfl (by decide)).2.2.1 ⟨[], false⟩ "Hello there!" rfl
     (by decide),
   (speak_muted_C8 o0 rM "hi" rfl (by decide)).2.2.2 ⟨[], false⟩ "😀" (by decide)⟩

/-- **C9.** A typed line dispatched as a question reaches the history
and the completion request as its lowercased, whitespace-stripped
form — typed capitalization is never preserved — whereas a phrase
obtained through the `voice` command reaches both with its original
case, untouched. -/
theorem typed_lowercased_voice_raw_C9 (o : Oracle) (st : RunState) (s t : String)
    (hcmd : pyLower (pyStrip s) ∉
      (["quit", "exit", "bye", "q", "clear", "mute", "unmute", "voice"] : List String))
    (hne : pyStrip (pyLower (pyStrip s)) ≠ "")
    (ht : o.listen st.listenCount = t) (ht0 : t ≠ "") (hts : pyStrip t ≠ "") :
    (∃ rest, (runStep o st (.line s)).1.agent.conversation_history =
      st.agent.conversation_history ++ Turn.mk "user" (pyLower (pyStrip s)) :: rest) ∧
    (runStep o st (.line s)).1.completionLog = st.completionLog ++
      [systemTurn :: windowed 6
        (st.agent.conversation_history ++ [Turn.mk "user" (pyLower (pyStrip s))])] ∧
    (∃ rest, (runStep o st (.line "voice")).1.agent.conversation_history =
      st.agent.conversation_history ++ Turn.mk "user" t :: rest) ∧
    (runStep o st (.line "voice")).1.completionLog = st.completionLog ++
      [systemTurn :: windowed 6 (st.agent.conversation_history ++ [Turn.mk "user" t])] := by
  have h0 : pyLower (pyStrip s) ≠ "" := by
    intro h
    apply hne
    rw [h]
    rfl
  simp only [List.mem_cons, List.not_mem_nil, or_false, not_or] at hcmd
  obtain ⟨hq1, hq2, hq3, hq4, hc1, hm1, hu1, hv1⟩ := hcmd
  have htyped : runStep o st (.line s) = (doQuestion o st (pyLower (pyStrip s)), none) := by
    simp [runStep, hq1, hq2, hq3, hq4, hc1, hm1, hu1, hv1, h0]
  have hvoice : runStep o st (.line "voice") =
      (doQuestion o ⟨st.agent, st.listenCount + 1, st.completionLog, st.synthLog⟩ t, none) := by
    have hvv : pyLower (pyStrip "voice") = "voice" := by decide
    simp [runStep, hvv, ht, ht0]
  refine ⟨?_, ?_, ?_, ?_⟩
  · rw [htyped]
    rcases hc : o.complete (systemTurn :: windowed 6
        (st.agent.conversation_history ++ [Turn.mk "user" (pyLower (pyStrip s))])) with e | raw
    · exact ⟨[], by simp [doQuestion, ask, hne, hc]⟩
    · exact ⟨[Turn.mk "assistant" (pyStrip raw)], by simp [doQuestion, ask, hne, hc]⟩
  · rw [htyped]
    rcases hc : o.complete (systemTurn :: windowed 6
        (st.agent.conversation_history ++ [Turn.mk "user" (pyLower (pyStrip s))])) with e | raw <;>
      simp [doQuestion, ask, hne, hc]
  · rw [hvoice]
    rcases hc : o.complete (systemTurn :: windowed 6
        (st.agent.conversation_history ++ [Turn.mk "user" t])) with e | raw
    · exact ⟨[], by simp [doQuestion, ask, hts, hc]⟩
    · exact ⟨[Turn.mk "assistant" (pyStrip raw)], by simp [doQuestion, ask, hts, hc]⟩
  · rw [hvoice]
    rcases hc : o.complete (systemTurn :: windowed 6
        (st.agent.conversation_history ++ [Turn.mk "user" t])) with e | raw <;>
      simp [doQuestion, ask, hts, hc]

/-- **C9 witness.** Typing "  What IS Up?  " appends and submits
"what is up?", while a voice phrase keeps its capitals. -/
theorem typed_lowercased_voice_raw_C9_witness :
    (∃ rest, (runStep o0 r0 (.line "  What IS Up?  ")).1.agent.conversation_history =
      r0.agent.conversation_history ++
        Turn.mk "user" (pyLower (pyStrip "  What IS Up?  ")) :: rest) ∧
    (runStep o0 r0 (.line "  What IS Up?  ")).1.completionLog = r0.completionLog ++
      [systemTurn :: windowed 6 (r0.agent.conversation_history ++
        [Turn.mk "user" (pyLower (pyStrip "  What IS Up?  "))])] ∧
    (∃ rest, (runStep o0 r0 (.line "voice")).1.agent.conversation_history =
      r0.agent.conversation_history ++ Turn.mk "user" "Why Is The Sky Blue" :: rest) ∧
    (runStep o0 r0 (.line "voice")).1.completionLog = r0.completionLog ++
      [systemTurn :: windowed 6 (r0.agent.conversation_history ++
        [Turn.mk "user" "Why Is The Sky Blue"])] :=
  typed_lowercased_voice_raw_C9 o0 r0 "  What IS Up?  " "Why Is The Sky Blue"
    (by decide) (by decide) rfl (by decide) (by decide)

/-- **C10.** `mute` and `unmute` set only the muted flag, leaving the
dialogue history and everything else in the loop state unchanged;
`clear` resets only the dialogue history to empty, leaving the muted
flag and everything else unchanged; all three continue the loop. -/
theorem commands_frame_C10 (o : Oracle) (st : RunState) :
    (∀ s, pyLower (pyStrip s) = "mute" → runStep o st (.line s) =
      (⟨⟨st.agent.conversation_history, true⟩,
        st.listenCount, st.completionLog, st.synthLog⟩, none)) ∧
    (∀ s, pyLower (pyStrip s) = "unmute" → runStep o st (.line s) =
      (⟨⟨st.agent.conversation_history, false⟩,
        st.listenCount, st.completionLog, st.synthLog⟩, none)) ∧
    (∀ s, pyLower (pyStrip s) = "clear" → runStep o st (.line s) =
      (⟨⟨[], st.agent.muted⟩,
        st.listenCount, st.completionLog, st.synthLog⟩, none)) := by
  refine ⟨?_, ?_, ?_⟩ <;> intro s h <;> simp [runStep, h]

/-- **C10 witness.** The three commands on a fresh loop state, with
mixed case and surrounding whitespace. -/
theorem commands_frame_C10_witness :
    runStep o0 r0 (.line " MUTE ") =
      (⟨⟨r0.agent.conversation_history, true⟩,
        r0.listenCount, r0.completionLog, r0.synthLog⟩, none) ∧
    runStep o0 r0 (.line "Unmute") =
      (⟨⟨r0.agent.conversation_history, false⟩,
        r0.listenCount, r0.completionLog, r0.synthLog⟩, none) ∧
    runStep o0 r0 (.line " clear ") =
      (⟨⟨[], r0.agent.muted⟩,
        r0.listenCount, r0.completionLog, r0.synthLog⟩, none) :=
  ⟨(commands_frame_C10 o0 r0).1 " MUTE " (by decide),
   (commands_frame_C10 o0 r0).2.1 "Unmute" (by decide),
   (commands_frame_C10 o0 r0).2.2 " clear " (by decide)⟩

end Curiosity
